import Mathlib

/-!
Shallow embedding of the `APIPyTest` repository: the configuration resolver
(`source/client_api/config.py`) and the Book API client
(`source/client_api/book_client.py`).

Modelling conventions:
* Python strings are `List Char`.
* Python environment lookups are `Option (List Char)` parameters
  (`none` = variable unset; `some s` = set to `s`, possibly empty).
* A parsed JSON / Python value is `PyVal`; an HTTP response that arrived at
  transport level is `Response` (status code plus already-parsed JSON body).
* Python exceptions are the error side of `Except PyErr`; transport-level
  (network) failures happen before our model's entry point and simply
  propagate, so they are outside the `Response`-indexed functions.
-/

namespace BookAPI

/-- A Python/JSON value as the client sees it after `response.json()`. -/
inductive PyVal where
  | none
  | bool (b : Bool)
  | int (n : Int)
  | str (s : List Char)
  | list (xs : List PyVal)
  | dict (entries : List (List Char × PyVal))

/-- Python exceptions raised by the client code paths we model. -/
inductive PyErr where
  | HTTPError (status : Nat)
  | KeyError (key : List Char)
  | TypeError
  | AttributeError (attr : List Char)
deriving DecidableEq

/-- A transport-level-successful HTTP response: `status_code` plus the
parsed JSON body (`response.json()`). -/
structure Response where
  status_code : Nat
  body : PyVal

/-- Python truthiness of an optional string (`None` and `""` are falsy). -/
def truthyStr : Option (List Char) → Bool
  | Option.none => false
  | Option.some s => !s.isEmpty

/-- Python `a or b` on two optional strings: `a` when truthy, else `b`. -/
def pyOrStr (a b : Option (List Char)) : Option (List Char) :=
  if truthyStr a then a else b

/-- Python `s.rstrip('/')`: drop every trailing slash. -/
def pyRstripSlash (s : List Char) : List Char :=
  (s.reverse.dropWhile (fun c => c == '/')).reverse

/-- Python `s.lstrip('/')`: drop every leading slash. -/
def pyLstripSlash (s : List Char) : List Char :=
  s.dropWhile (fun c => c == '/')

/-- The hardcoded default base URL in `config.py`. -/
def DEFAULT_URL_BASE : List Char := "https://fakerestapi.azurewebsites.net".data

/-- The frozen dataclass `ClientAPIConfig` of `config.py`. -/
structure ClientAPIConfig where
  url_base : List Char
deriving DecidableEq

/-- `ClientAPIConfig.from_env` of `config.py`: if the explicit `url_base`
argument is `None`, read `CLIENT_API_URL_BASE` with the hardcoded default as
fallback; finally `rstrip('/')` the chosen value.  `envCLIENT_API_URL_BASE`
is the state of that environment variable. -/
def ClientAPIConfig.from_env (url_base : Option (List Char))
    (envCLIENT_API_URL_BASE : Option (List Char)) : ClientAPIConfig :=
  match url_base with
  | Option.none =>
      ClientAPIConfig.mk
        (pyRstripSlash (envCLIENT_API_URL_BASE.getD DEFAULT_URL_BASE))
  | Option.some s => ClientAPIConfig.mk (pyRstripSlash s)

/-- `requests.Response.raise_for_status`: raise `HTTPError` exactly on
4xx/5xx status codes, succeed otherwise. -/
def raise_for_status (r : Response) : Except PyErr Unit :=
  if 400 ≤ r.status_code ∧ r.status_code < 600 then
    Except.error (PyErr.HTTPError r.status_code)
  else Except.ok ()

/-- TLS verification setting of a transport.  `requests` defaults to
verifying against the system store (`standard`); a session can carry
`verify = False` (`disabled`) or `verify = <path>` (`bundle`). -/
inductive VerifySetting where
  | standard
  | disabled
  | bundle (path : List Char)
deriving DecidableEq

/-- A `requests.Session`: the only per-session state the client touches is
its `verify` attribute. -/
structure Session where
  verify : VerifySetting
deriving DecidableEq

/-- Which transport a client method hands its request to: the client's
session object, or the module-level `requests.get/post/put/delete`
functions (which build a fresh default transport per call). -/
inductive Transport where
  | session
  | moduleRequests
deriving DecidableEq

/-- HTTP method of an outbound request. -/
inductive Method where
  | GET
  | POST
  | PUT
  | DELETE
deriving DecidableEq

/-- The observable shape of one outbound call: HTTP method, full URL,
which transport issued it, and the TLS verification that applies to it. -/
structure IssuedRequest where
  method : Method
  url : List Char
  transport : Transport
  verify : VerifySetting
deriving DecidableEq

/-- The state of a constructed `BookClient`: resolved configuration plus
the session stored in `self.session`. -/
structure BookClientState where
  config : ClientAPIConfig
  session : Session
deriving DecidableEq

/-- `BookClient.__init__`: resolve the configuration via
`ClientAPIConfig.from_env`, keep the injected session or create a default
one, then set `self.session.verify` from
`os.getenv("REQUESTS_CA_BUNDLE") or os.getenv("SSL_CERT_FILE")`
(CA bundle when that expression is truthy, `False` otherwise). -/
def BookClient.init (url_base : Option (List Char)) (session : Option Session)
    (envREQUESTS_CA_BUNDLE envSSL_CERT_FILE envCLIENT_API_URL_BASE :
      Option (List Char)) : BookClientState :=
  let config := ClientAPIConfig.from_env url_base envCLIENT_API_URL_BASE
  let s := session.getD (Session.mk VerifySetting.standard)
  let ca_bundle := pyOrStr envREQUESTS_CA_BUNDLE envSSL_CERT_FILE
  if truthyStr ca_bundle then
    BookClientState.mk config
      { s with verify := VerifySetting.bundle (ca_bundle.getD []) }
  else BookClientState.mk config { s with verify := VerifySetting.disabled }

/-- `BookClient._url(path)`: base URL, a slash, then the path with leading
slashes stripped. -/
def BookClient.url (st : BookClientState) (path : List Char) : List Char :=
  st.config.url_base ++ [ '/' ] ++ pyLstripSlash path

/-- Python decimal string of an integer id, used in f-string URLs. -/
def pyDigitChar (d : Nat) : Char :=
  match d with
  | 0 => '0'
  | 1 => '1'
  | 2 => '2'
  | 3 => '3'
  | 4 => '4'
  | 5 => '5'
  | 6 => '6'
  | 7 => '7'
  | 8 => '8'
  | _ => '9'

/-- Decimal digit characters of a natural number, most significant first
(Python `str(n)` for `n ≥ 0`). -/
def natReprChars (n : Nat) : List Char :=
  if n = 0 then [ '0' ] else ((Nat.digits 10 n).reverse).map pyDigitChar

/-- Python `str(i)` for an `int`, as a character list. -/
def intReprChars (i : Int) : List Char :=
  if i < 0 then '-' :: natReprChars i.natAbs else natReprChars i.natAbs

/-- The outbound request of `BookClient.list_books`: line 119 calls the
module-level `requests.get(self._url("/api/v1/Books"))`, not
`self.session.get`, so the request runs on a fresh default transport with
default TLS verification. -/
def list_books_request (st : BookClientState) : IssuedRequest :=
  IssuedRequest.mk Method.GET (BookClient.url st "/api/v1/Books".data)
    Transport.moduleRequests VerifySetting.standard

/-- The outbound request of `BookClient.get_book`: module-level
`requests.get` on an f-string URL. -/
def get_book_request (st : BookClientState) (book_id : Int) : IssuedRequest :=
  IssuedRequest.mk Method.GET
    (st.config.url_base ++ "/api/v1/Books/".data ++ intReprChars book_id)
    Transport.moduleRequests VerifySetting.standard

/-- The outbound request of `BookClient.create_book`: module-level
`requests.post`. -/
def create_book_request (st : BookClientState) : IssuedRequest :=
  IssuedRequest.mk Method.POST (st.config.url_base ++ "/api/v1/Books".data)
    Transport.moduleRequests VerifySetting.standard

/-- The outbound request of `BookClient.update_book`: module-level
`requests.put`. -/
def update_book_request (st : BookClientState) (book_id : Int) : IssuedRequest :=
  IssuedRequest.mk Method.PUT
    (st.config.url_base ++ "/api/v1/Books/".data ++ intReprChars book_id)
    Transport.moduleRequests VerifySetting.standard

/-- The outbound request of `BookClient.delete_book`: module-level
`requests.delete` on `self._url(...)`. -/
def delete_book_request (st : BookClientState) (book_id : Int) : IssuedRequest :=
  IssuedRequest.mk Method.DELETE
    (BookClient.url st ("/api/v1/Books/".data ++ intReprChars book_id))
    Transport.moduleRequests VerifySetting.standard

/-- The outbound request of `BookClient.get_schema`: module-level
`requests.get` on `self._url("/swagger/v1/swagger.json")`. -/
def get_schema_request (st : BookClientState) : IssuedRequest :=
  IssuedRequest.mk Method.GET
    (BookClient.url st "/swagger/v1/swagger.json".data)
    Transport.moduleRequests VerifySetting.standard

/-- `BookClient.list_books` after the transport delivered `r`:
`response.raise_for_status()` then `return response`. -/
def list_books (r : Response) : Except PyErr Response :=
  match raise_for_status r with
  | Except.error e => Except.error e
  | Except.ok _ => Except.ok r

/-- `BookClient.get_book` after the transport delivered `r`: the
`raise_for_status` line is commented out, so the response is returned
unconditionally. -/
def get_book (r : Response) : Except PyErr Response :=
  Except.ok r

/-- `BookClient.create_book` after the transport delivered `r`: the
`raise_for_status` line is commented out, so the response is returned
unconditionally. -/
def create_book (r : Response) : Except PyErr Response :=
  Except.ok r

/-- `BookClient.update_book` after the transport delivered `r`:
`response.raise_for_status()` then `return response`. -/
def update_book (r : Response) : Except PyErr Response :=
  match raise_for_status r with
  | Except.error e => Except.error e
  | Except.ok _ => Except.ok r

/-- `BookClient.delete_book` after the transport delivered `r`:
`response.raise_for_status()` then `return response`. -/
def delete_book (r : Response) : Except PyErr Response :=
  match raise_for_status r with
  | Except.error e => Except.error e
  | Except.ok _ => Except.ok r

/-- `BookClient.get_schema` after the transport delivered `r`:
`response.raise_for_status()` then `return response` — the `Response`
object itself, not `response.json()`. -/
def get_schema (r : Response) : Except PyErr Response :=
  match raise_for_status r with
  | Except.error e => Except.error e
  | Except.ok _ => Except.ok r

/-- Python attribute call `x.get(key, default)` when `x` is a
`requests.Response`: `Response` has no attribute `get`, so attribute
lookup raises `AttributeError`. -/
def Response.attrGet (_ : Response) (_ : List Char) (_ : PyVal) :
    Except PyErr PyVal :=
  Except.error (PyErr.AttributeError "get".data)

/-- Python `d[key]` subscription on a `PyVal`: value for dicts holding the
key, `KeyError` for dicts lacking it, `TypeError` otherwise. -/
def pySubscript (v : PyVal) (key : List Char) : Except PyErr PyVal :=
  match v with
  | PyVal.dict entries =>
      match entries.lookup key with
      | Option.some x => Except.ok x
      | Option.none => Except.error (PyErr.KeyError key)
  | _ => Except.error PyErr.TypeError

/-- Python attribute call `v.get(key, default)` when `v` is a JSON value:
dicts look the key up with the default; every other value lacks a `get`
attribute, so the lookup raises `AttributeError`. -/
def pyValGet (v : PyVal) (key : List Char) (default : PyVal) :
    Except PyErr PyVal :=
  match v with
  | PyVal.dict entries => Except.ok ((entries.lookup key).getD default)
  | _ => Except.error (PyErr.AttributeError "get".data)

/-- `BookClient.get_book_schema` after the transport delivered the schema
response `r`: `schema = self.get_schema()` (a `Response`), then
`schema.get("definitions", {}).get("Book", {})`. -/
def get_book_schema (r : Response) : Except PyErr PyVal :=
  match get_schema r with
  | Except.error e => Except.error e
  | Except.ok schema =>
      match Response.attrGet schema "definitions".data (PyVal.dict []) with
      | Except.error e => Except.error e
      | Except.ok defs => pyValGet defs "Book".data (PyVal.dict [])

/-- The list comprehension `[book["id"] for book in books]`: ids in order,
stopping at the first raising element. -/
def extract_ids : List PyVal → Except PyErr (List PyVal)
  | [] => Except.ok []
  | book :: rest =>
      match pySubscript book "id".data with
      | Except.error e => Except.error e
      | Except.ok v =>
          match extract_ids rest with
          | Except.error e => Except.error e
          | Except.ok vs => Except.ok (v :: vs)

/-- `BookClient.get_existing_book_ids` after the transport delivered `r`:
`response = self.list_books()`, a second `response.raise_for_status()`,
`books = response.json()`, then
`[book["id"] for book in books] if isinstance(books, list) else []`. -/
def get_existing_book_ids (r : Response) : Except PyErr (List PyVal) :=
  match list_books r with
  | Except.error e => Except.error e
  | Except.ok response =>
      match raise_for_status response with
      | Except.error e => Except.error e
      | Except.ok _ =>
          match response.body with
          | PyVal.list xs => extract_ids xs
          | _ => Except.ok []

/-- Python `book_id == v` where `book_id : int` and `v` is a JSON value
(`True == 1` and `False == 0` in Python). -/
def pyIntEq (n : Int) : PyVal → Bool
  | PyVal.int m => n == m
  | PyVal.bool b => n == (if b then 1 else 0)
  | _ => false

/-- `BookClient.book_exists` after the transport delivered `r`:
`book_id in self.get_existing_book_ids()`. -/
def book_exists (r : Response) (book_id : Int) : Except PyErr Bool :=
  match get_existing_book_ids r with
  | Except.error e => Except.error e
  | Except.ok existing_ids => Except.ok (existing_ids.any (pyIntEq book_id))

/-- `BookClient.build_valid_book_data(random_book_id)`: the literal dict of
lines 244-251, with the f-strings expanded. -/
def build_valid_book_data (random_book_id : Int) : PyVal :=
  PyVal.dict
    [ ("id".data, PyVal.int random_book_id),
      ("title".data,
        PyVal.str ("Creating valid book randomic".data ++
          intReprChars random_book_id)),
      ("description".data,
        PyVal.str ("Default Description for create book ".data ++
          intReprChars random_book_id)),
      ("pageCount".data, PyVal.int 100),
      ("excerpt".data,
        PyVal.str ("This is a default excerpt. book randomic".data ++
          intReprChars random_book_id)),
      ("publishDate".data, PyVal.str "2023-01-01T00:00:00Z".data) ]

/-- Python `isinstance(v, list)` on a JSON value. -/
def PyVal.isList : PyVal → Bool
  | PyVal.list _ => true
  | _ => false

/-- The `"id"` entry of a JSON value, when the value is a dict that has
one (the pure view of `book["id"]`, used to state theorems). -/
def idField : PyVal → Option PyVal
  | PyVal.dict entries => entries.lookup "id".data
  | _ => Option.none

end BookAPI

namespace BookAPI

/-- Helper list lemma: the head surviving `dropWhile p` falsifies `p`. -/
theorem dropWhile_head?_not {α : Type} (p : α → Bool) :
    ∀ (l : List α) (a : α), (List.dropWhile p l).head? = some a → p a = false := by
  intro l
  induction l with
  | nil => intro a h; simp [List.dropWhile] at h
  | cons x xs ih =>
      intro a h
      by_cases hx : p x
      · rw [List.dropWhile_cons_of_pos hx] at h
        exact ih a h
      · rw [List.dropWhile_cons_of_neg hx] at h
        simp at h
        rw [← h]
        exact eq_false_of_ne_true hx

/-- `pyRstripSlash` never leaves a trailing slash. -/
theorem pyRstripSlash_no_trailing (s : List Char) :
    (pyRstripSlash s).getLast? ≠ some '/' := by
  intro h
  unfold pyRstripSlash at h
  rw [List.getLast?_reverse] at h
  have := dropWhile_head?_not (fun c => c == '/') s.reverse '/' h
  simp at this

/-- `pyDigitChar` is injective on digits. -/
theorem pyDigitChar_inj {a b : Nat} (ha : a < 10) (hb : b < 10)
    (h : pyDigitChar a = pyDigitChar b) : a = b := by
  interval_cases a <;> interval_cases b <;> revert h <;> decide

/-- `pyDigitChar` never yields the minus sign. -/
theorem pyDigitChar_ne_dash (d : Nat) : pyDigitChar d ≠ '-' := by
  rcases d with _ | _ | _ | _ | _ | _ | _ | _ | _ | d <;>
    first
      | decide
      | (show ('9' : Char) ≠ '-'; decide)

/-- Mapping `pyDigitChar` over digit lists is injective. -/
theorem map_pyDigitChar_inj :
    ∀ l1 l2 : List Nat, (∀ d ∈ l1, d < 10) → (∀ d ∈ l2, d < 10) →
      l1.map pyDigitChar = l2.map pyDigitChar → l1 = l2 := by
  intro l1
  induction l1 with
  | nil =>
      intro l2 _ _ h
      cases l2 with
      | nil => rfl
      | cons b bs => simp at h
  | cons a as ih =>
      intro l2 h1 h2 h
      cases l2 with
      | nil => simp at h
      | cons b bs =>
          simp only [List.map_cons, List.cons.injEq] at h
          have hab : a = b :=
            pyDigitChar_inj (h1 a (List.mem_cons_self a as))
              (h2 b (List.mem_cons_self b bs)) h.1
          have hrest : as = bs :=
            ih bs (fun d hd => h1 d (List.mem_cons_of_mem a hd))
              (fun d hd => h2 d (List.mem_cons_of_mem b hd)) h.2
          rw [hab, hrest]

/-- Every decimal digit of a natural number is below 10. -/
theorem digit_lt_ten {n d : Nat} (hd : d ∈ (Nat.digits 10 n).reverse) :
    d < 10 :=
  Nat.digits_lt_base (by norm_num) (List.mem_reverse.mp hd)

/-- `natReprChars` never equals a string starting with a minus sign. -/
theorem natReprChars_ne_dash_cons (n : Nat) (l : List Char) :
    natReprChars n ≠ '-' :: l := by
  intro h
  unfold natReprChars at h
  by_cases hn : n = 0
  · rw [if_pos hn] at h
    injection h with h1 _
    exact absurd h1 (by decide)
  · rw [if_neg hn] at h
    cases hd : (Nat.digits 10 n).reverse with
    | nil =>
        have : Nat.digits 10 n = [] := by
          have := congrArg List.reverse hd
          simpa using this
        exact hn (Nat.digits_eq_nil_iff_eq_zero.mp this)
    | cons d ds =>
        rw [hd] at h
        simp only [List.map_cons, List.cons.injEq] at h
        exact pyDigitChar_ne_dash d h.1

/-- `natReprChars` is injective: distinct naturals have distinct decimal
strings. -/
theorem natReprChars_inj {m n : Nat} (h : natReprChars m = natReprChars n) :
    m = n := by
  unfold natReprChars at h
  by_cases hm : m = 0 <;> by_cases hn : n = 0
  · rw [hm, hn]
  · exfalso
    rw [if_pos hm, if_neg hn] at h
    cases hd : (Nat.digits 10 n).reverse with
    | nil =>
        rw [hd] at h
        simp at h
    | cons d ds =>
        rw [hd] at h
        simp only [List.map_cons] at h
        have h01 : ('0' : Char) = pyDigitChar d ∧ [] = ds.map pyDigitChar := by
          injection h.symm with h1 h2
          exact ⟨h1.symm, h2.symm⟩
        have hds : ds = [] := by
          cases ds with
          | nil => rfl
          | cons x xs => simp at h01
        have hdlt : d < 10 := digit_lt_ten (hd ▸ List.mem_cons_self d ds)
        have hd0 : d = 0 :=
          pyDigitChar_inj hdlt (by norm_num) h01.1.symm
        have hdig : Nat.digits 10 n = [0] := by
          have := congrArg List.reverse hd
          simpa [hds, hd0] using this
        have : n = 0 := by
          have hofd := Nat.ofDigits_digits 10 n
          rw [hdig] at hofd
          simpa using hofd.symm
        exact hn this
  · exfalso
    rw [if_neg hm, if_pos hn] at h
    cases hd : (Nat.digits 10 m).reverse with
    | nil =>
        rw [hd] at h
        simp at h
    | cons d ds =>
        rw [hd] at h
        simp only [List.map_cons] at h
        have h01 : pyDigitChar d = '0' ∧ ds.map pyDigitChar = [] := by
          injection h with h1 h2
          exact ⟨h1, h2⟩
        have hds : ds = [] := by
          cases ds with
          | nil => rfl
          | cons x xs => simp at h01
        have hdlt : d < 10 := digit_lt_ten (hd ▸ List.mem_cons_self d ds)
        have hd0 : d = 0 :=
          pyDigitChar_inj hdlt (by norm_num) h01.1
        have hdig : Nat.digits 10 m = [0] := by
          have := congrArg List.reverse hd
          simpa [hds, hd0] using this
        have : m = 0 := by
          have hofd := Nat.ofDigits_digits 10 m
          rw [hdig] at hofd
          simpa using hofd.symm
        exact hm this
  · rw [if_neg hm, if_neg hn] at h
    have hrev : (Nat.digits 10 m).reverse = (Nat.digits 10 n).reverse :=
      map_pyDigitChar_inj _ _ (fun d hd => digit_lt_ten hd)
        (fun d hd => digit_lt_ten hd) h
    have hdig : Nat.digits 10 m = Nat.digits 10 n :=
      List.reverse_injective hrev
    exact Nat.digits.injective 10 hdig

/-- `intReprChars` is injective: distinct integers have distinct decimal
strings. -/
theorem intReprChars_inj {i j : Int} (h : intReprChars i = intReprChars j) :
    i = j := by
  unfold intReprChars at h
  by_cases hi : i < 0 <;> by_cases hj : j < 0
  · rw [if_pos hi, if_pos hj] at h
    injection h with _ h2
    have := natReprChars_inj h2
    omega
  · exfalso
    rw [if_pos hi, if_neg hj] at h
    exact natReprChars_ne_dash_cons j.natAbs (natReprChars i.natAbs) h.symm
  · exfalso
    rw [if_neg hi, if_pos hj] at h
    exact natReprChars_ne_dash_cons i.natAbs (natReprChars j.natAbs) h
  · rw [if_neg hi, if_neg hj] at h
    have := natReprChars_inj h
    omega

/-- On a non-error status, `raise_for_status` succeeds. -/
theorem raise_for_status_ok {r : Response} (h : r.status_code < 400) :
    raise_for_status r = Except.ok () := by
  unfold raise_for_status
  rw [if_neg]
  omega

/-- On a non-error status, `list_books` returns the response unchanged. -/
theorem list_books_ok {r : Response} (h : r.status_code < 400) :
    list_books r = Except.ok r := by
  unfold list_books
  rw [raise_for_status_ok h]

/-- On a non-error status, `get_existing_book_ids` reduces to the body
branch: the comprehension for list bodies, `[]` otherwise. -/
theorem get_existing_book_ids_eq {r : Response} (h : r.status_code < 400) :
    get_existing_book_ids r =
      match r.body with
      | PyVal.list xs => extract_ids xs
      | _ => Except.ok [] := by
  unfold get_existing_book_ids
  simp only [list_books_ok h, raise_for_status_ok h]

/-- When a JSON value has an `"id"` entry, subscription returns it. -/
theorem pySubscript_of_idField {b : PyVal} (hb : (idField b).isSome = true) :
    pySubscript b "id".data = Except.ok ((idField b).getD PyVal.none) := by
  cases b with
  | dict entries =>
      simp only [pySubscript, idField] at hb ⊢
      cases hl : entries.lookup "id".data with
      | none => simp [hl] at hb
      | some v => rfl
  | none => simp [idField] at hb
  | bool b => simp [idField] at hb
  | int n => simp [idField] at hb
  | str s => simp [idField] at hb
  | list xs => simp [idField] at hb

/-- When every element has an `"id"` entry, the comprehension succeeds and
returns the entries in order. -/
theorem extract_ids_ok :
    ∀ xs : List PyVal, (∀ b ∈ xs, (idField b).isSome = true) →
      extract_ids xs =
        Except.ok (xs.map (fun b => (idField b).getD PyVal.none)) := by
  intro xs
  induction xs with
  | nil => intro _; rfl
  | cons book rest ih =>
      intro hall
      unfold extract_ids
      rw [pySubscript_of_idField (hall book (List.mem_cons_self book rest))]
      rw [ih (fun b hb => hall b (List.mem_cons_of_mem book hb))]
      simp

/-- The `"title"` entry of `build_valid_book_data`. -/
theorem build_title (s : Int) :
    pySubscript (build_valid_book_data s) "title".data =
      Except.ok (PyVal.str
        ("Creating valid book randomic".data ++ intReprChars s)) := rfl

/-- The `"description"` entry of `build_valid_book_data`. -/
theorem build_description (s : Int) :
    pySubscript (build_valid_book_data s) "description".data =
      Except.ok (PyVal.str
        ("Default Description for create book ".data ++ intReprChars s)) :=
  rfl

/-- The `"excerpt"` entry of `build_valid_book_data`. -/
theorem build_excerpt (s : Int) :
    pySubscript (build_valid_book_data s) "excerpt".data =
      Except.ok (PyVal.str
        ("This is a default excerpt. book randomic".data ++
          intReprChars s)) := rfl

/-- C1: the claim says `list_books` never raises on an HTTP error status
and always hands the raw response back; at status 404 the code raises
`HTTPError` instead. -/
theorem list_books_raises_on_error_status :
    list_books (Response.mk 404 PyVal.none) =
      Except.error (PyErr.HTTPError 404) := rfl

/-- C1 (amended): `list_books` raises `HTTPError` exactly on HTTP error
statuses (400-599) and returns the raw response object only for the other
statuses; transport-level errors still propagate. -/
theorem list_books_status_policy (r : Response) :
    (¬ (400 ≤ r.status_code ∧ r.status_code < 600) →
      list_books r = Except.ok r) ∧
    (400 ≤ r.status_code → r.status_code < 600 →
      list_books r = Except.error (PyErr.HTTPError r.status_code)) := by
  constructor
  · intro h
    unfold list_books raise_for_status
    rw [if_neg h]
  · intro h1 h2
    unfold list_books raise_for_status
    rw [if_pos (And.intro h1 h2)]

/-- C1 witness: the amended policy at statuses 200 and 404. -/
theorem list_books_status_policy_witness :
    list_books (Response.mk 200 PyVal.none) =
      Except.ok (Response.mk 200 PyVal.none) ∧
    list_books (Response.mk 418 PyVal.none) =
      Except.error (PyErr.HTTPError 418) :=
  And.intro
    ((list_books_status_policy (Response.mk 200 PyVal.none)).1 (by decide))
    ((list_books_status_policy (Response.mk 418 PyVal.none)).2 (by decide)
      (by decide))

/-- C4: the claim (and the repository's own
`test_delete_nonexistent_book`) says deleting a non-existent id returns a
404 response without throwing; `delete_book` calls `raise_for_status`, so
at status 404 it raises `HTTPError` instead of returning. -/
theorem delete_book_raises_on_not_found :
    delete_book (Response.mk 404 PyVal.none) =
      Except.error (PyErr.HTTPError 404) := rfl

/-- C8: whichever path chooses the base URL (explicit argument,
`CLIENT_API_URL_BASE`, or the hardcoded default), the resolver stores a
value without a trailing slash. -/
theorem resolved_url_base_no_trailing_slash
    (explicit env : Option (List Char)) :
    ((ClientAPIConfig.from_env explicit env).url_base).getLast? ≠
      some '/' := by
  cases explicit with
  | none => exact pyRstripSlash_no_trailing _
  | some s => exact pyRstripSlash_no_trailing s

/-- C9: the claim says an empty explicit base URL falls back to the
environment variable; the code only checks for `None`, so an empty
explicit string is used as-is and the environment value is ignored. -/
theorem from_env_empty_explicit_not_env :
    ClientAPIConfig.from_env (Option.some [])
        (Option.some "https://envhost.example".data) =
      ClientAPIConfig.mk [] ∧
    ClientAPIConfig.mk [] ≠
      ClientAPIConfig.mk (pyRstripSlash "https://envhost.example".data) :=
  And.intro rfl (by decide)

/-- C9 (amended): the resolver uses the explicit argument whenever it is
provided (not `None`) — even when it is empty; only an absent explicit
value reads the environment variable, with the hardcoded default as final
fallback; every path yields a configuration. -/
theorem from_env_branch_selection :
    (∀ (s : List Char) (env : Option (List Char)),
      ClientAPIConfig.from_env (Option.some s) env =
        ClientAPIConfig.mk (pyRstripSlash s)) ∧
    (∀ e : List Char,
      ClientAPIConfig.from_env Option.none (Option.some e) =
        ClientAPIConfig.mk (pyRstripSlash e)) ∧
    ClientAPIConfig.from_env Option.none Option.none =
      ClientAPIConfig.mk (pyRstripSlash DEFAULT_URL_BASE) :=
  ⟨fun _ _ => rfl, fun _ => rfl, rfl⟩

/-- C2: the claim says every HTTP-issuing operation goes through the
client's session, so the TLS mode fixed at construction applies to each
call; in the code all six operations call the module-level `requests`
functions, which use a fresh default-verification transport, and in
particular a client constructed without CA-bundle variables carries
`verify = False` on its session while its requests still run with
standard verification. -/
theorem client_requests_bypass_session (st : BookClientState)
    (book_id : Int) :
    (list_books_request st).transport = Transport.moduleRequests ∧
    (get_book_request st book_id).transport = Transport.moduleRequests ∧
    (create_book_request st).transport = Transport.moduleRequests ∧
    (update_book_request st book_id).transport = Transport.moduleRequests ∧
    (delete_book_request st book_id).transport = Transport.moduleRequests ∧
    (get_schema_request st).transport = Transport.moduleRequests ∧
    (list_books_request st).verify = VerifySetting.standard ∧
    (BookClient.init Option.none Option.none Option.none Option.none
        Option.none).session.verify = VerifySetting.disabled :=
  ⟨rfl, rfl, rfl, rfl, rfl, rfl, rfl, rfl⟩

/-- C3: the claim says `get_book_schema` extracts the `"Book"` definition
from the schema document; in the code `get_schema` returns the `Response`
object itself (never calling `.json()`), so `schema.get("definitions",
{})` raises `AttributeError` on every successful schema response. -/
theorem get_book_schema_always_attribute_error (r : Response)
    (h : r.status_code < 400) :
    get_book_schema r = Except.error (PyErr.AttributeError "get".data) := by
  have hs : get_schema r = Except.ok r := by
    unfold get_schema
    rw [raise_for_status_ok h]
  unfold get_book_schema
  rw [hs]
  rfl

/-- C3 witness: a 200 schema response whose body does contain the Book
definition still yields `AttributeError`. -/
theorem get_book_schema_always_attribute_error_witness :
    get_book_schema
        (Response.mk 200 (PyVal.dict
          [("definitions".data, PyVal.dict
            [("Book".data, PyVal.dict [])])])) =
      Except.error (PyErr.AttributeError "get".data) :=
  get_book_schema_always_attribute_error
    (Response.mk 200 (PyVal.dict
      [("definitions".data, PyVal.dict [("Book".data, PyVal.dict [])])]))
    (by decide)

/-- C5: whenever `get_existing_book_ids` yields a sequence of ids from the
underlying list response, `book_exists(book_id)` on that same response
returns true exactly when `book_id` is a member of that sequence (Python
`in`, i.e. `==` against some element). -/
theorem book_exists_iff_member (r : Response) (book_id : Int)
    (ids : List PyVal) (h : get_existing_book_ids r = Except.ok ids) :
    book_exists r book_id = Except.ok true ↔
      ids.any (pyIntEq book_id) = true := by
  unfold book_exists
  rw [h]
  show Except.ok (ids.any (pyIntEq book_id)) = Except.ok true ↔
    ids.any (pyIntEq book_id) = true
  constructor
  · intro hx
    injection hx
  · intro hx
    rw [hx]

/-- C5 witness: a response listing the single book with id 3. -/
theorem book_exists_iff_member_witness :
    book_exists
        (Response.mk 200 (PyVal.list [PyVal.dict [("id".data, PyVal.int 3)]]))
        3 =
      Except.ok true ↔
    ([PyVal.int 3].any (pyIntEq 3) = true) :=
  book_exists_iff_member
    (Response.mk 200 (PyVal.list [PyVal.dict [("id".data, PyVal.int 3)]]))
    3 [PyVal.int 3] rfl

/-- C6: `build_valid_book_data` is a pure function of the seed (equal
seeds give equal records); distinct seeds give distinct title,
description and excerpt fields; and every record has `pageCount = 100`
and `publishDate = "2023-01-01T00:00:00Z"`. -/
theorem build_valid_book_data_seed_properties (s t : Int) (hst : s ≠ t) :
    build_valid_book_data s = build_valid_book_data s ∧
    pySubscript (build_valid_book_data s) "title".data ≠
      pySubscript (build_valid_book_data t) "title".data ∧
    pySubscript (build_valid_book_data s) "description".data ≠
      pySubscript (build_valid_book_data t) "description".data ∧
    pySubscript (build_valid_book_data s) "excerpt".data ≠
      pySubscript (build_valid_book_data t) "excerpt".data ∧
    pySubscript (build_valid_book_data s) "pageCount".data =
      Except.ok (PyVal.int 100) ∧
    pySubscript (build_valid_book_data s) "publishDate".data =
      Except.ok (PyVal.str "2023-01-01T00:00:00Z".data) := by
  refine ⟨rfl, ?_, ?_, ?_, rfl, rfl⟩
  · intro h
    rw [build_title s, build_title t] at h
    injection h with h1
    injection h1 with h2
    exact hst (intReprChars_inj ((List.append_right_inj _).mp h2))
  · intro h
    rw [build_description s, build_description t] at h
    injection h with h1
    injection h1 with h2
    exact hst (intReprChars_inj ((List.append_right_inj _).mp h2))
  · intro h
    rw [build_excerpt s, build_excerpt t] at h
    injection h with h1
    injection h1 with h2
    exact hst (intReprChars_inj ((List.append_right_inj _).mp h2))

/-- C6 witness: seeds 0 and 1 give different title fields. -/
theorem build_valid_book_data_seed_properties_witness :
    pySubscript (build_valid_book_data 0) "title".data ≠
      pySubscript (build_valid_book_data 1) "title".data :=
  (build_valid_book_data_seed_properties 0 1 (by decide)).2.1

/-- C7: on a successful list response, `get_existing_book_ids` returns
`[]` when the body is not a JSON list, and when the body is a list of
records carrying `"id"` it returns those ids in the order of the
response. -/
theorem get_existing_book_ids_shape (r : Response)
    (h : r.status_code < 400) :
    (r.body.isList = false → get_existing_book_ids r = Except.ok []) ∧
    (∀ xs, r.body = PyVal.list xs →
      (∀ b ∈ xs, (idField b).isSome = true) →
      get_existing_book_ids r =
        Except.ok (xs.map (fun b => (idField b).getD PyVal.none))) := by
  constructor
  · intro hb
    rw [get_existing_book_ids_eq h]
    cases hr : r.body with
    | list xs => rw [hr] at hb; simp [PyVal.isList] at hb
    | none => rfl
    | bool b => rfl
    | int n => rfl
    | str s => rfl
    | dict entries => rfl
  · intro xs hxs hall
    rw [get_existing_book_ids_eq h, hxs]
    exact extract_ids_ok xs hall

/-- C7 witness: a non-list 200 body gives `[]`; a two-element list body
gives its ids in order. -/
theorem get_existing_book_ids_shape_witness :
    get_existing_book_ids (Response.mk 200 (PyVal.int 5)) =
      Except.ok [] ∧
    get_existing_book_ids (Response.mk 200 (PyVal.list
        [PyVal.dict [("id".data, PyVal.int 1)],
          PyVal.dict [("id".data, PyVal.int 7)]])) =
      Except.ok [PyVal.int 1, PyVal.int 7] := by
  constructor
  · exact (get_existing_book_ids_shape (Response.mk 200 (PyVal.int 5))
      (by decide)).1 rfl
  · exact (get_existing_book_ids_shape (Response.mk 200 (PyVal.list
        [PyVal.dict [("id".data, PyVal.int 1)],
          PyVal.dict [("id".data, PyVal.int 7)]])) (by decide)).2
      [PyVal.dict [("id".data, PyVal.int 1)],
        PyVal.dict [("id".data, PyVal.int 7)]] rfl
      (by
        intro b hb
        rcases List.mem_cons.mp hb with rfl | hb2
        · rfl
        · rcases List.mem_cons.mp hb2 with rfl | hb3
          · rfl
          · cases hb3)

/-- C10: when the body is a list whose elements all carry `"id"`, the
error branch of `get_existing_book_ids` is unreachable and exactly those
id values are returned; an element lacking `"id"` makes the operation
raise `KeyError` instead of returning a sequence. -/
theorem get_existing_book_ids_requires_id_keys :
    (∀ (r : Response) (xs : List PyVal), r.status_code < 400 →
      r.body = PyVal.list xs →
      (∀ b ∈ xs, (idField b).isSome = true) →
      get_existing_book_ids r =
        Except.ok (xs.map (fun b => (idField b).getD PyVal.none))) ∧
    get_existing_book_ids
        (Response.mk 200 (PyVal.list [PyVal.dict []])) =
      Except.error (PyErr.KeyError "id".data) := by
  constructor
  · intro r xs h hxs hall
    rw [get_existing_book_ids_eq h, hxs]
    exact extract_ids_ok xs hall
  · rfl

/-- C10 witness: a singleton list whose element carries id 3. -/
theorem get_existing_book_ids_requires_id_keys_witness :
    get_existing_book_ids
        (Response.mk 200 (PyVal.list [PyVal.dict [("id".data, PyVal.int 3)]])) =
      Except.ok [PyVal.int 3] :=
  get_existing_book_ids_requires_id_keys.1
    (Response.mk 200 (PyVal.list [PyVal.dict [("id".data, PyVal.int 3)]]))
    [PyVal.dict [("id".data, PyVal.int 3)]] (by decide) rfl
    (by
      intro b hb
      rcases List.mem_cons.mp hb with rfl | hb2
      · rfl
      · cases hb2)

end BookAPI
